import Mathlib

/-!
Verification of the `setVariable` DAP request handler
(`src/python/mqt/debugger/dap/messages/set_variable_dap_message.py`).

Strings are modelled as `List Char` (ASCII fragment of Python `str`);
Python exceptions become `Except` values; the external simulation-state
collaborator (the native `mqt.debugger` module, not under `src/`) is
modelled from the spec at its two-operation interface (lookup / store).
-/

/-- Strings of the embedding: Python `str` restricted to its ASCII fragment. -/
abbrev PyStr := List Char

/-- Whitespace recognised by Python `str.strip()` (ASCII fragment: space,
tab, newline, carriage return, vertical tab, form feed, and the separator
control characters U+001C through U+001F, all of which satisfy Python
`str.isspace()`). -/
def isPySpace (c : Char) : Bool :=
  c = ' ' || c = '\t' || c = '\n' || c = '\r' || c = Char.ofNat 11 || c = Char.ofNat 12 ||
    c = Char.ofNat 28 || c = Char.ofNat 29 || c = Char.ofNat 30 || c = Char.ofNat 31

/-- Python `str.strip()`: remove leading and trailing whitespace. -/
def pyStrip (s : PyStr) : PyStr :=
  ((s.dropWhile isPySpace).reverse.dropWhile isPySpace).reverse

/-- Python `str.lower()` on a single character (ASCII fragment). -/
def pyLowerChar (c : Char) : Char :=
  if 'A' ≤ c ∧ c ≤ 'Z' then Char.ofNat (c.toNat + 32) else c

/-- Python `str.lower()` (ASCII fragment). -/
def pyLowerStr (s : PyStr) : PyStr :=
  s.map pyLowerChar

/-- Value of one digit character in the given base, as accepted by Python
`int(..., base)`: `0`-`9`, then letters (either case) for values 10 and up;
`none` when the character is not a digit of that base. -/
def digitVal (b : Nat) (c : Char) : Option Nat :=
  let v : Option Nat :=
    if 'a' ≤ c ∧ c ≤ 'z' then some (c.toNat - 'a'.toNat + 10)
    else if 'A' ≤ c ∧ c ≤ 'Z' then some (c.toNat - 'A'.toNat + 10)
    else if '0' ≤ c ∧ c ≤ '9' then some (c.toNat - '0'.toNat)
    else none
  match v with
  | some d => if d < b then some d else none
  | none => none

/-- Continuation of a digit run in base `b`, with Python underscore rules:
a single `_` may stand between two digits, never doubled, never trailing.
`acc` is the value of the digits already consumed. -/
def parseUDigitsAux (b : Nat) (acc : Nat) : PyStr → Option Nat
  | [] => some acc
  | c :: rest =>
    if c = '_' then
      match rest with
      | [] => none
      | c2 :: rest2 =>
        match digitVal b c2 with
        | some d => parseUDigitsAux b (acc * b + d) rest2
        | none => none
    else
      match digitVal b c with
      | some d => parseUDigitsAux b (acc * b + d) rest
      | none => none

/-- A non-empty digit run in base `b` with Python underscore rules; the
whole input must be consumed. -/
def parseUDigits (b : Nat) : PyStr → Option Nat
  | [] => none
  | c :: rest =>
    match digitVal b c with
    | some d => parseUDigitsAux b d rest
    | none => none

/-- Digits following a `0x`/`0o`/`0b` base tag in a Python integer literal:
one optional underscore may separate the tag from the first digit. -/
def parseTaggedDigits (b : Nat) (cs : PyStr) : Option Nat :=
  match cs with
  | [] => none
  | c :: rest => if c = '_' then parseUDigits b rest else parseUDigits b cs

/-- An unprefixed (decimal) body under `int(s, 0)` rules: base-10 digits,
where a value whose first character is `0` must be zero
(leading zeros on a nonzero decimal literal are rejected). -/
def pyDecimal (cs : PyStr) : Option Nat :=
  match parseUDigits 10 cs with
  | some n => if cs.head? = some '0' ∧ n ≠ 0 then none else some n
  | none => none

/-- The unsigned body of a Python integer literal under `int(s, 0)` rules:
a leading `0x`/`0X`, `0o`/`0O` or `0b`/`0B` tag selects base 16, 8 or 2;
otherwise the decimal rules apply. -/
def pyIntBody (cs : PyStr) : Option Nat :=
  match cs with
  | c0 :: c1 :: rest =>
    if c0 = '0' ∧ (c1 = 'x' ∨ c1 = 'X') then parseTaggedDigits 16 rest
    else if c0 = '0' ∧ (c1 = 'o' ∨ c1 = 'O') then parseTaggedDigits 8 rest
    else if c0 = '0' ∧ (c1 = 'b' ∨ c1 = 'B') then parseTaggedDigits 2 rest
    else pyDecimal cs
  | _ => pyDecimal cs

/-- Python `int(s, 0)` (ASCII fragment): strip whitespace, one optional
sign, then an integer-literal body; `none` models `ValueError`. -/
def pyIntBase0 (s : PyStr) : Option Int :=
  match pyStrip s with
  | [] => none
  | c :: rest =>
    if c = '+' then (pyIntBody rest).map (fun n => (n : Int))
    else if c = '-' then (pyIntBody rest).map (fun n => -(n : Int))
    else (pyIntBody (c :: rest)).map (fun n => (n : Int))

/-- Python `str()` of an integer: decimal digits with a `-` sign when
negative. -/
def pyStrOfInt (i : Int) : PyStr :=
  if i < 0 then '-' :: Nat.toDigits 10 i.natAbs else Nat.toDigits 10 i.toNat

/-- Modelled from the spec: the value carried by a Python `float`.  The
spec treats floats only as "decimal floating-point literal" values; IEEE-754
binary64 rounding is outside the embedding, so a finite value records the
literal exactly as mantissa times a power of ten. -/
inductive PyFloatVal
  | finite (mantissa : Int) (exp10 : Int)
  | inf
  | neginf
  | nan
deriving DecidableEq

/-- Greedy run of base-`b` digits with Python underscore rules; returns the
accumulated value, the number of digits consumed, and the unconsumed rest
(an underscore not standing between two digits is left unconsumed). -/
def takeDigitRun (b : Nat) : PyStr → Nat → Nat → Nat × Nat × PyStr
  | [], acc, cnt => (acc, cnt, [])
  | c :: rest, acc, cnt =>
    if c = '_' then
      match rest with
      | [] => (acc, cnt, c :: rest)
      | c2 :: rest2 =>
        if cnt ≠ 0 then
          match digitVal b c2 with
          | some d => takeDigitRun b rest2 (acc * b + d) (cnt + 1)
          | none => (acc, cnt, c :: rest)
        else (acc, cnt, c :: rest)
    else
      match digitVal b c with
      | some d => takeDigitRun b rest (acc * b + d) (cnt + 1)
      | none => (acc, cnt, c :: rest)

/-- Mantissa of a Python float literal: `digits [. digits]` or `. digits`,
at least one digit in total.  Returns the combined digit value, the number
of fractional digits, and the unconsumed rest. -/
def pyFloatMantissa (cs : PyStr) : Option (Nat × Nat × PyStr) :=
  let (ip, ic, r1) := takeDigitRun 10 cs 0 0
  match r1 with
  | '.' :: r2 =>
    let (fp, fc, r3) := takeDigitRun 10 r2 0 0
    if ic + fc = 0 then none else some (ip * 10 ^ fc + fp, fc, r3)
  | _ => if ic = 0 then none else some (ip, 0, r1)

/-- Exponent part of a Python float literal: empty, or `e`/`E`, an optional
sign and a digit run that consumes the whole rest. -/
def pyFloatExp (cs : PyStr) : Option Int :=
  match cs with
  | [] => some 0
  | c :: rest =>
    if c = 'e' ∨ c = 'E' then
      let sr : Int × PyStr :=
        match rest with
        | [] => (1, [])
        | s :: r => if s = '+' then (1, r) else if s = '-' then (-1, r) else (1, rest)
      match parseUDigits 10 sr.2 with
      | some n => some (sr.1 * n)
      | none => none
    else none

/-- Unsigned part of Python `float(s)`: `inf`/`infinity`/`nan`
(case-insensitive) or a mantissa followed by an exponent part. -/
def pyFloatUnsigned (cs : PyStr) : Option PyFloatVal :=
  let low := pyLowerStr cs
  if low = "inf".toList ∨ low = "infinity".toList then some PyFloatVal.inf
  else if low = "nan".toList then some PyFloatVal.nan
  else
    match pyFloatMantissa cs with
    | none => none
    | some (m, fc, rest) =>
      match pyFloatExp rest with
      | none => none
      | some e => some (PyFloatVal.finite (m : Int) (e - (fc : Int)))

/-- Negation of a Python float value. -/
def pyNegFloat : PyFloatVal → PyFloatVal
  | PyFloatVal.finite m e => PyFloatVal.finite (-m) e
  | PyFloatVal.inf => PyFloatVal.neginf
  | PyFloatVal.neginf => PyFloatVal.inf
  | PyFloatVal.nan => PyFloatVal.nan

/-- Python `float(s)` (ASCII fragment): strip whitespace, one optional
sign, then an unsigned float body; `none` models `ValueError`. -/
def pyFloatParse (s : PyStr) : Option PyFloatVal :=
  match pyStrip s with
  | [] => none
  | c :: rest =>
    if c = '+' then pyFloatUnsigned rest
    else if c = '-' then (pyFloatUnsigned rest).map pyNegFloat
    else pyFloatUnsigned (c :: rest)

/-- Modelled from the spec: the display rendering of a float.  Python
`str()` on a float (shortest round-trip IEEE-754 rendering) is outside the
embedding; this exact rendering of the literal value keeps the converter
total.  No claim settled here depends on its exact output. -/
def pyStrOfFloat : PyFloatVal → PyStr
  | PyFloatVal.inf => "inf".toList
  | PyFloatVal.neginf => "-inf".toList
  | PyFloatVal.nan => "nan".toList
  | PyFloatVal.finite m e => pyStrOfInt m ++ ('e' :: pyStrOfInt e)

/-- The declared type of a classical variable
(`mqt.debugger.VariableType`; spec data model: `{Bool, Int, Float, Unsupported}`). -/
inductive VariableType
  | VarBool
  | VarInt
  | VarFloat
  | VarUnsupported
deriving DecidableEq

/-- `mqt.debugger.VariableValue`: the converter starts from `VariableValue()`
(no field populated, modelled as three `none` fields) and assigns exactly one
of `bool_value` / `int_value` / `float_value`. -/
structure VariableValue where
  bool_value : Option Bool := none
  int_value : Option Int := none
  float_value : Option PyFloatVal := none
deriving DecidableEq

/-- The apostrophe character (`chr 39`), used inside error messages. -/
def quoteChar : Char := Char.ofNat 39

/-- Error message for an ineligible scope reference. -/
def scopeErrorMsg : PyStr :=
  "Setting variables is only supported for classical registers.".toList

/-- Error message for a group-level (bracketless) target. -/
def groupErrorMsg : PyStr :=
  ("Updating grouped classical registers is not supported yet. " ++
    "Expand the register and edit an individual bit.").toList

/-- Error message for a boolean raw value outside the four accepted tokens. -/
def boolErrorMsg : PyStr :=
  "Boolean variables only accept ".toList ++ [quoteChar] ++ "true".toList ++
    [quoteChar, ','] ++ " ".toList ++ [quoteChar] ++ "false".toList ++
    [quoteChar, ','] ++ " ".toList ++ [quoteChar, '1', quoteChar, ','] ++
    " or ".toList ++ [quoteChar, '0', quoteChar, '.']

/-- Error message for an unparsable integer raw value. -/
def intErrorMsg : PyStr :=
  "Integer variables expect a base-10 or prefixed literal.".toList

/-- Error message for an unparsable float raw value. -/
def floatErrorMsg : PyStr :=
  "Floating-point variables expect a decimal literal.".toList

/-- Error message for a declared type that is not settable. -/
def unsupportedTypeMsg : PyStr :=
  "Unsupported variable type.".toList

/-- Error message produced when the simulation state reports a failure
(`RuntimeError`), built from the originally requested name. -/
def unableToUpdateMsg (name : PyStr) : PyStr :=
  "Unable to update classical variable ".toList ++ [quoteChar] ++ name ++
    [quoteChar, '.']

/-- The module-level converter `_convert_to_value(raw_value, var_type)`:
strip the raw string, dispatch on the declared type, and return the
populated `VariableValue` together with its display string, or the
`ValueError` message (`Except.error`). -/
def _convert_to_value (raw_value : PyStr) (var_type : VariableType) :
    Except PyStr (VariableValue × PyStr) :=
  let value : VariableValue := {}
  let cleaned := pyStrip raw_value
  match var_type with
  | VariableType.VarBool =>
    let lowered := pyLowerStr cleaned
    if lowered = "true".toList ∨ lowered = "1".toList then
      Except.ok ({ value with bool_value := some true }, "True".toList)
    else if lowered = "false".toList ∨ lowered = "0".toList then
      Except.ok ({ value with bool_value := some false }, "False".toList)
    else
      Except.error boolErrorMsg
  | VariableType.VarInt =>
    match pyIntBase0 cleaned with
    | none => Except.error intErrorMsg
    | some parsed => Except.ok ({ value with int_value := some parsed }, pyStrOfInt parsed)
  | VariableType.VarFloat =>
    match pyFloatParse cleaned with
    | none => Except.error floatErrorMsg
    | some parsed => Except.ok ({ value with float_value := some parsed }, pyStrOfFloat parsed)
  | VariableType.VarUnsupported =>
    Except.error unsupportedTypeMsg

/-- `SetVariableDAPMessage._resolve_target_name`: reject a scope reference
that is neither `1` nor at least `10`, then reject a target name without a
bracketed index; otherwise return the name unchanged.  The `ValueError`
message is the `Except.error` payload. -/
def _resolve_target_name (variables_reference : Int) (name : PyStr) :
    Except PyStr PyStr :=
  if variables_reference ≠ 1 ∧ variables_reference < 10 then
    Except.error scopeErrorMsg
  else if '[' ∉ name then
    Except.error groupErrorMsg
  else
    Except.ok name

/-- The two exception kinds the handler catches: `ValueError` with a
message, and the collaborator-raised `RuntimeError`. -/
inductive PyErr
  | valueError (msg : PyStr)
  | runtimeError
deriving DecidableEq

/-- Modelled from the spec: one classical-variable binding held by the
external Variable Store collaborator (its descriptor's declared type plus
the current binding). -/
structure ClassicalVar where
  name : PyStr
  type : VariableType
  value : VariableValue
deriving DecidableEq

/-- Modelled from the spec: the external simulation-state collaborator
(spec, section 6), exposing lookup and store over classical-variable
bindings.  `storeFails` marks names for which the store operation reports
its opaque, collaborator-internal `StoreError`. -/
structure SimulationState where
  vars : List ClassicalVar
  storeFails : PyStr → Bool

/-- Modelled from the spec: `SimulationState.get_classical_variable`: look
the name up among the classical-variable bindings; an unknown name is the
`NotFoundError` path, surfacing as a `RuntimeError`. -/
def get_classical_variable (st : SimulationState) (name : PyStr) :
    Except PyErr ClassicalVar :=
  match st.vars.find? (fun v => v.name = name) with
  | some v => Except.ok v
  | none => Except.error PyErr.runtimeError

/-- Modelled from the spec: `SimulationState.set_classical_variable`: store
the value under the name, or report the collaborator-internal failure as a
`RuntimeError`. -/
def set_classical_variable (st : SimulationState) (name : PyStr)
    (ty : VariableType) (v : VariableValue) : Except PyErr SimulationState :=
  if st.storeFails name then Except.error PyErr.runtimeError
  else
    Except.ok
      { st with
        vars := st.vars.map (fun cv =>
          if cv.name = name then { cv with type := ty, value := v } else cv) }

/-- The request fields of a `SetVariableDAPMessage` (from the constructor:
`variablesReference`, `name`, and `value` coerced to a string). -/
structure SetVariableDAPMessage where
  variables_reference : Int
  name : PyStr
  value : PyStr
deriving DecidableEq

/-- The protocol response assembled by `handle`: the base response from
`DAPMessage.handle` starts with `success = true` and no message or body
(base class modelled from the spec's Response shape); failure paths set
`success = false` with a message, the success path adds the body value. -/
structure Response where
  success : Bool
  message : Option PyStr
  body : Option PyStr
deriving DecidableEq

/-- `SetVariableDAPMessage.handle`: resolve the target name, look up the
variable, convert the raw value against its declared type, store the
result; a `ValueError` becomes a failure response carrying its message,
a `RuntimeError` becomes a failure response with the fixed message built
from the originally requested name. -/
def handle (msg : SetVariableDAPMessage) (server : SimulationState) :
    Response × SimulationState :=
  match _resolve_target_name msg.variables_reference msg.name with
  | Except.error e =>
    ({ success := false, message := some e, body := none }, server)
  | Except.ok target_name =>
    match get_classical_variable server target_name with
    | Except.error _ =>
      ({ success := false, message := some (unableToUpdateMsg msg.name), body := none }, server)
    | Except.ok cvar =>
      match _convert_to_value msg.value cvar.type with
      | Except.error e =>
        ({ success := false, message := some e, body := none }, server)
      | Except.ok (new_value, display_value) =>
        match set_classical_variable server target_name cvar.type new_value with
        | Except.error _ =>
          ({ success := false, message := some (unableToUpdateMsg msg.name), body := none }, server)
        | Except.ok server2 =>
          ({ success := true, message := none, body := some display_value }, server2)

/-- A concrete store holding one boolean classical register bit, used by
the closed example instances. -/
def demoServer : SimulationState :=
  { vars := [{ name := "creg[2]".toList, type := VariableType.VarBool, value := {} }],
    storeFails := fun _ => false }

/-- The populated variant of a converted value matches the declared type:
exactly the field corresponding to the type is set, the other two are not. -/
def populatedVariantMatches (t : VariableType) (v : VariableValue) : Bool :=
  match t with
  | VariableType.VarBool => v.bool_value.isSome && v.int_value == none && v.float_value == none
  | VariableType.VarInt => v.int_value.isSome && v.bool_value == none && v.float_value == none
  | VariableType.VarFloat => v.float_value.isSome && v.bool_value == none && v.int_value == none
  | VariableType.VarUnsupported => false

/-- The four boolean tokens accepted after trimming and lowercasing. -/
def boolTokens : List PyStr :=
  ["true".toList, "1".toList, "false".toList, "0".toList]

/-- The value denoted by a plain digit string in base `b`, most significant
digit first. -/
def digitsValue (b : Nat) (ds : PyStr) : Nat :=
  ds.foldl (fun a c => a * b + (digitVal b c).getD 0) 0

/-- A store stub on which every store operation reports failure, used by
the closed witness instances. -/
def alwaysFailStore : PyStr → Bool := fun _ => true

/-- Dropping a prefix by a predicate is idempotent. -/
theorem dropWhile_idem (p : Char → Bool) (l : PyStr) :
    (l.dropWhile p).dropWhile p = l.dropWhile p := by
  induction l with
  | nil => rfl
  | cons a l ih =>
    by_cases h : p a
    · simp [List.dropWhile_cons, h, ih]
    · simp [List.dropWhile_cons, h]

/-- The head of a `dropWhile` result never satisfies the predicate. -/
theorem dropWhile_head?_not (p : Char → Bool) (l : PyStr) (c : Char)
    (h : (l.dropWhile p).head? = some c) : p c = false := by
  induction l with
  | nil => simp at h
  | cons a l ih =>
    by_cases hp : p a
    · exact ih (by simpa [List.dropWhile_cons, hp] using h)
    · simp [List.dropWhile_cons, hp] at h
      simpa [← h] using hp

/-- A non-empty `dropWhile` result ends where the input ends. -/
theorem dropWhile_getLast? (p : Char → Bool) (l : PyStr)
    (h : l.dropWhile p ≠ []) : (l.dropWhile p).getLast? = l.getLast? := by
  induction l with
  | nil => simp at h
  | cons a l ih =>
    by_cases hp : p a
    · rw [List.dropWhile_cons_of_pos hp]
      rw [List.dropWhile_cons_of_pos hp] at h
      rw [ih h]
      have hl : l ≠ [] := by
        intro he
        exact h (by simp [he])
      cases l with
      | nil => exact absurd rfl hl
      | cons b l2 => simp [List.getLast?_cons_cons]
    · rw [List.dropWhile_cons_of_neg hp]

/-- A list whose head fails the predicate is unchanged by `dropWhile`. -/
theorem dropWhile_eq_self_of_head (p : Char → Bool) (l : PyStr) (c : Char)
    (hh : l.head? = some c) (hc : p c = false) : l.dropWhile p = l := by
  cases l with
  | nil => rfl
  | cons a l =>
    have : a = c := by simpa using hh
    subst this
    simp [List.dropWhile_cons, hc]

/-- Python stripping is idempotent. -/
theorem pyStrip_idem (s : PyStr) : pyStrip (pyStrip s) = pyStrip s := by
  unfold pyStrip
  set p := isPySpace with hp
  set r := s.dropWhile p with hr
  set w := r.reverse.dropWhile p with hw
  have hA : w.reverse.dropWhile p = w.reverse := by
    cases hh : w.reverse.head? with
    | none =>
      have : w.reverse = [] := by
        cases hwr : w.reverse with
        | nil => rfl
        | cons a t => rw [hwr] at hh; simp at hh
      rw [this]
      rfl
    | some c =>
      have hc : p c = false := by
        have h1 : w.getLast? = some c := by rwa [List.head?_reverse] at hh
        have hwne : w ≠ [] := by
          intro he
          rw [he] at h1
          simp at h1
        have h2 : w.getLast? = r.reverse.getLast? := by
          rw [hw]
          exact dropWhile_getLast? p r.reverse (by rwa [← hw])
        have h3 : r.reverse.getLast? = r.head? := List.getLast?_reverse r
        have h4 : r.head? = some c := by rw [← h3, ← h2, h1]
        exact dropWhile_head?_not p s c (by rwa [← hr])
      exact dropWhile_eq_self_of_head p w.reverse c hh hc
  rw [hA, List.reverse_reverse, hw, dropWhile_idem]

/-- The converter first strips its raw argument, so stripping in advance
cannot change its result (claim C7 uses this through `_convert_to_value`). -/
theorem convert_strip_invariant (s : PyStr) (t : VariableType) :
    _convert_to_value (pyStrip s) t = _convert_to_value s t := by
  unfold _convert_to_value
  rw [pyStrip_idem]

/-- C1: for every raw string and declared type in {Bool, Int, Float}, when
the converter succeeds, the populated variant of the returned value is
exactly the one corresponding to the declared type; no cross-type value is
ever assembled (the VarUnsupported case never succeeds, so the conclusion
also covers it vacuously through `populatedVariantMatches`). -/
theorem C1_populated_variant_matches_declared_type
    (raw : PyStr) (t : VariableType) (out : VariableValue × PyStr)
    (h : _convert_to_value raw t = Except.ok out) :
    populatedVariantMatches t out.1 = true := by
  cases t with
  | VarBool =>
    simp only [_convert_to_value] at h
    split at h
    · injection h with h1
      rw [← h1]
      rfl
    · split at h
      · injection h with h1
        rw [← h1]
        rfl
      · simp at h
  | VarInt =>
    simp only [_convert_to_value] at h
    cases hp : pyIntBase0 (pyStrip raw) with
    | none => rw [hp] at h; simp at h
    | some n =>
      rw [hp] at h
      injection h with h1
      rw [← h1]
      rfl
  | VarFloat =>
    simp only [_convert_to_value] at h
    cases hp : pyFloatParse (pyStrip raw) with
    | none => rw [hp] at h; simp at h
    | some f =>
      rw [hp] at h
      injection h with h1
      rw [← h1]
      rfl
  | VarUnsupported =>
    simp only [_convert_to_value] at h
    exact Except.noConfusion h

/-- Witness for C1 at raw string `"1"` and declared type Bool. -/
theorem C1_populated_variant_matches_declared_type_witness :
    populatedVariantMatches VariableType.VarBool
      ((({ bool_value := some true } : VariableValue), ("True".toList : PyStr))).1 = true :=
  C1_populated_variant_matches_declared_type ("1".toList) VariableType.VarBool
    ({ bool_value := some true }, "True".toList) rfl

/-- C3: target validation fails on the scope check exactly when the scope
reference is neither `1` nor at least `10`; the rejection is independent of
the target name (and the raw value, which `_resolve_target_name` never
reads). -/
theorem C3_scope_check_iff (ref : Int) (name : PyStr) :
    _resolve_target_name ref name = Except.error scopeErrorMsg ↔
      ¬(ref = 1 ∨ 10 ≤ ref) := by
  unfold _resolve_target_name
  by_cases h : ref ≠ 1 ∧ ref < 10
  · rw [if_pos h]
    apply iff_of_true rfl
    push_neg
    exact ⟨h.1, by omega⟩
  · rw [if_neg h]
    apply iff_of_false
    · split
      · intro he
        injection he with he1
        exact absurd he1 (by decide)
      · intro he
        exact Except.noConfusion he
    · intro hn
      push_neg at h
      rcases eq_or_ne ref 1 with h1 | h1
      · exact hn (Or.inl h1)
      · exact hn (Or.inr (h h1))

/-- Witness for C3 at scope reference `2` and target name `"q[0]"`. -/
theorem C3_scope_check_iff_witness :
    _resolve_target_name 2 ("q[0]".toList) = Except.error scopeErrorMsg :=
  (C3_scope_check_iff 2 ("q[0]".toList)).mpr (by decide)

/-- C4: on a mutable scope, a target name without a bracket is rejected
with the expand-the-register message, and a target name containing a
bracket passes validation and is returned unchanged. -/
theorem C4_bracket_rule (ref : Int) (name : PyStr) (h : ref = 1 ∨ 10 ≤ ref) :
    _resolve_target_name ref name =
      (if '[' ∈ name then Except.ok name else Except.error groupErrorMsg) := by
  unfold _resolve_target_name
  have hc : ¬(ref ≠ 1 ∧ ref < 10) := by
    rcases h with h | h
    · intro hc
      exact hc.1 h
    · intro hc
      omega
  rw [if_neg hc]
  by_cases hm : '[' ∈ name
  · simp [hm]
  · simp [hm]

/-- Witness for C4 at scope reference `1` with names `"creg"` and
`"creg[2]"`. -/
theorem C4_bracket_rule_witness :
    _resolve_target_name 1 ("creg".toList) = Except.error groupErrorMsg ∧
      _resolve_target_name 1 ("creg[2]".toList) = Except.ok ("creg[2]".toList) :=
  ⟨by rw [C4_bracket_rule 1 ("creg".toList) (Or.inl rfl)]; rfl,
   by rw [C4_bracket_rule 1 ("creg[2]".toList) (Or.inl rfl)]; rfl⟩

/-- C5: boolean conversion matches the trimmed input case-insensitively:
any casing of `true`/`1` yields `true` with display `"True"`, any casing of
`false`/`0` yields `false` with display `"False"`, and every other string
is the boolean `ConversionError`. -/
theorem C5_bool_conversion (s : PyStr) :
    (pyLowerStr (pyStrip s) = "true".toList ∨ pyLowerStr (pyStrip s) = "1".toList →
      _convert_to_value s VariableType.VarBool =
        Except.ok ({ bool_value := some true }, "True".toList))
  ∧ (pyLowerStr (pyStrip s) = "false".toList ∨ pyLowerStr (pyStrip s) = "0".toList →
      _convert_to_value s VariableType.VarBool =
        Except.ok ({ bool_value := some false }, "False".toList))
  ∧ (pyLowerStr (pyStrip s) ∉ boolTokens →
      _convert_to_value s VariableType.VarBool = Except.error boolErrorMsg) := by
  refine ⟨?_, ?_, ?_⟩
  · intro h
    simp only [_convert_to_value]
    rw [if_pos h]
  · intro h
    simp only [_convert_to_value]
    have h1 : ¬(pyLowerStr (pyStrip s) = "true".toList ∨ pyLowerStr (pyStrip s) = "1".toList) := by
      rcases h with h | h <;> rw [h] <;> decide
    rw [if_neg h1, if_pos h]
  · intro h
    simp only [boolTokens, List.mem_cons, List.mem_singleton] at h
    push_neg at h
    obtain ⟨h1, h2, h3, h4, -⟩ := h
    simp only [_convert_to_value]
    rw [if_neg (by rintro (h | h) <;> [exact h1 h; exact h2 h]),
      if_neg (by rintro (h | h) <;> [exact h3 h; exact h4 h])]

/-- Witness for C5 at raw strings `"TRUE"`, `"False"` and `"x"`. -/
theorem C5_bool_conversion_witness :
    _convert_to_value ("TRUE".toList) VariableType.VarBool =
        Except.ok ({ bool_value := some true }, "True".toList) ∧
      _convert_to_value ("False".toList) VariableType.VarBool =
        Except.ok ({ bool_value := some false }, "False".toList) ∧
      _convert_to_value ("x".toList) VariableType.VarBool = Except.error boolErrorMsg :=
  ⟨(C5_bool_conversion ("TRUE".toList)).1 (Or.inl (by decide)),
   (C5_bool_conversion ("False".toList)).2.1 (Or.inl (by decide)),
   (C5_bool_conversion ("x".toList)).2.2 (by decide)⟩

/-- C7: the converter's whole result is invariant under trimming the raw
string in advance, for every raw string and every declared type (the code
strips before interpretation, and stripping is idempotent). -/
theorem C7_trim_invariance (s : PyStr) (t : VariableType) :
    _convert_to_value s t = _convert_to_value (pyStrip s) t :=
  (convert_strip_invariant s t).symm

/-- C9: a declared type that is neither Bool nor Int nor Float (in the
model: the explicit Unsupported marker) makes the converter fail with the
type-not-settable `ConversionError`, whatever the raw string. -/
theorem C9_unsupported_type (s : PyStr) (t : VariableType)
    (h1 : t ≠ VariableType.VarBool) (h2 : t ≠ VariableType.VarInt)
    (h3 : t ≠ VariableType.VarFloat) :
    _convert_to_value s t = Except.error unsupportedTypeMsg := by
  cases t with
  | VarBool => exact absurd rfl h1
  | VarInt => exact absurd rfl h2
  | VarFloat => exact absurd rfl h3
  | VarUnsupported => rfl

/-- Witness for C9 at raw string `"42"` and the Unsupported marker. -/
theorem C9_unsupported_type_witness :
    _convert_to_value ("42".toList) VariableType.VarUnsupported =
      Except.error unsupportedTypeMsg :=
  C9_unsupported_type ("42".toList) VariableType.VarUnsupported
    (by decide) (by decide) (by decide)

/-- A base-`b` digit is never an underscore. -/
theorem digit_ne_underscore {b : Nat} {c : Char}
    (h : (digitVal b c).isSome = true) : c ≠ '_' := by
  intro he
  subst he
  simp [digitVal] at h

/-- A base-`b` digit is never a whitespace character. -/
theorem digit_not_space {b : Nat} {c : Char}
    (h : (digitVal b c).isSome = true) : isPySpace c = false := by
  cases hsp : isPySpace c with
  | false => rfl
  | true =>
    simp only [isPySpace, Bool.or_eq_true, decide_eq_true_eq] at hsp
    rcases hsp with ((((((((h1 | h1) | h1) | h1) | h1) | h1) | h1) | h1) | h1) | h1 <;>
      subst h1 <;> simp [digitVal] at h

/-- Unfolding equation of `parseUDigitsAux` on a cons cell. -/
theorem parseUDigitsAux_cons (b acc : Nat) (c : Char) (rest : PyStr) :
    parseUDigitsAux b acc (c :: rest) =
      if c = '_' then
        match rest with
        | [] => none
        | c2 :: rest2 =>
          match digitVal b c2 with
          | some d => parseUDigitsAux b (acc * b + d) rest2
          | none => none
      else
        match digitVal b c with
        | some d => parseUDigitsAux b (acc * b + d) rest
        | none => none := by
  rw [parseUDigitsAux.eq_def]
  rfl

/-- Unfolding equation of `parseUDigits` on a cons cell. -/
theorem parseUDigits_cons (b : Nat) (c : Char) (rest : PyStr) :
    parseUDigits b (c :: rest) =
      match digitVal b c with
      | some d => parseUDigitsAux b d rest
      | none => none := by
  rw [parseUDigits.eq_def]

/-- On an underscore-free digit string, the underscore-aware run parser is
the plain left fold. -/
theorem parseUDigitsAux_all_digits (b : Nat) (ds : PyStr) :
    ∀ acc : Nat, (∀ c ∈ ds, (digitVal b c).isSome = true) →
      parseUDigitsAux b acc ds =
        some (ds.foldl (fun a c => a * b + (digitVal b c).getD 0) acc) := by
  induction ds with
  | nil => intro acc _; rfl
  | cons c rest ih =>
    intro acc h
    have hc : (digitVal b c).isSome = true := h c (by simp)
    obtain ⟨d, hd⟩ := Option.isSome_iff_exists.mp hc
    rw [parseUDigitsAux_cons, if_neg (digit_ne_underscore hc)]
    simp only [hd, List.foldl_cons, Option.getD_some]
    exact ih (acc * b + d) (fun x hx => h x (by simp [hx]))

/-- A non-empty underscore-free digit string parses to its base-`b` value. -/
theorem parseUDigits_all_digits (b : Nat) (ds : PyStr) (h1 : ds ≠ [])
    (h2 : ∀ c ∈ ds, (digitVal b c).isSome = true) :
    parseUDigits b ds = some (digitsValue b ds) := by
  cases ds with
  | nil => exact absurd rfl h1
  | cons d rest =>
    have hd : (digitVal b d).isSome = true := h2 d (by simp)
    obtain ⟨v, hv⟩ := Option.isSome_iff_exists.mp hd
    rw [parseUDigits_cons]
    simp only [hv]
    rw [parseUDigitsAux_all_digits b rest v (fun x hx => h2 x (by simp [hx]))]
    simp only [digitsValue, List.foldl_cons, hv, Option.getD_some, Nat.zero_mul, Nat.zero_add]

/-- A non-empty underscore-free digit string also parses after a base tag. -/
theorem parseTaggedDigits_all_digits (b : Nat) (ds : PyStr) (h1 : ds ≠ [])
    (h2 : ∀ c ∈ ds, (digitVal b c).isSome = true) :
    parseTaggedDigits b ds = some (digitsValue b ds) := by
  cases ds with
  | nil => exact absurd rfl h1
  | cons d rest =>
    simp only [parseTaggedDigits]
    rw [if_neg (digit_ne_underscore (h2 d (by simp)))]
    exact parseUDigits_all_digits b (d :: rest) (by simp) h2

/-- `dropWhile` leaves a list alone when no element satisfies the
predicate. -/
theorem dropWhile_eq_self_of_all (p : Char → Bool) (l : PyStr)
    (h : ∀ c ∈ l, p c = false) : l.dropWhile p = l := by
  cases l with
  | nil => rfl
  | cons a t => exact List.dropWhile_cons_of_neg (by simp [h a (by simp)])

/-- Stripping leaves a whitespace-free string unchanged. -/
theorem pyStrip_eq_self_of_no_space (l : PyStr)
    (h : ∀ c ∈ l, isPySpace c = false) : pyStrip l = l := by
  unfold pyStrip
  rw [dropWhile_eq_self_of_all isPySpace l h,
    dropWhile_eq_self_of_all isPySpace l.reverse
      (fun c hc => h c (List.mem_reverse.mp hc)),
    List.reverse_reverse]

/-- Parsing is insensitive to pre-stripping, since `int(s, 0)` strips
first itself. -/
theorem pyIntBase0_strip (s : PyStr) : pyIntBase0 (pyStrip s) = pyIntBase0 s := by
  unfold pyIntBase0
  rw [pyStrip_idem]

/-- A `0x`/`0o`/`0b` tag makes `int(s, 0)` parse the digits in base
16/8/2. -/
theorem pyIntBase0_tagged (b : Nat) (tag : Char) (ds : PyStr)
    (htag : (tag = 'x' ∧ b = 16) ∨ (tag = 'o' ∧ b = 8) ∨ (tag = 'b' ∧ b = 2))
    (h1 : ds ≠ []) (h2 : ∀ c ∈ ds, (digitVal b c).isSome = true) :
    pyIntBase0 ('0' :: tag :: ds) = some (digitsValue b ds) := by
  have hns : ∀ c ∈ ('0' :: tag :: ds), isPySpace c = false := by
    intro c hc
    rcases List.mem_cons.mp hc with rfl | hc
    · decide
    rcases List.mem_cons.mp hc with rfl | hc
    · rcases htag with ⟨ht, -⟩ | ⟨ht, -⟩ | ⟨ht, -⟩ <;> subst ht <;> decide
    · exact digit_not_space (h2 c hc)
  have hst : pyStrip ('0' :: tag :: ds) = '0' :: tag :: ds :=
    pyStrip_eq_self_of_no_space _ hns
  unfold pyIntBase0
  rw [hst]
  dsimp only
  rw [if_neg (by decide : ¬('0' : Char) = '+'), if_neg (by decide : ¬('0' : Char) = '-')]
  have hbody : pyIntBody ('0' :: tag :: ds) = some (digitsValue b ds) := by
    rw [pyIntBody.eq_def]
    dsimp only
    rcases htag with ⟨ht, hb⟩ | ⟨ht, hb⟩ | ⟨ht, hb⟩ <;> subst ht <;> subst hb
    · rw [if_pos ⟨rfl, Or.inl rfl⟩]
      exact parseTaggedDigits_all_digits 16 ds h1 h2
    · rw [if_neg (by decide), if_pos ⟨rfl, Or.inl rfl⟩]
      exact parseTaggedDigits_all_digits 8 ds h1 h2
    · rw [if_neg (by decide), if_neg (by decide), if_pos ⟨rfl, Or.inl rfl⟩]
      exact parseTaggedDigits_all_digits 2 ds h1 h2
  rw [hbody]
  rfl

/-- Without a tag, `int(s, 0)` parses a digit string (not starting with
`0`) in base 10. -/
theorem pyIntBase0_decimal (ds : PyStr) (h1 : ds ≠ [])
    (h2 : ∀ c ∈ ds, (digitVal 10 c).isSome = true) (h3 : ds.head? ≠ some '0') :
    pyIntBase0 ds = some (digitsValue 10 ds) := by
  cases ds with
  | nil => exact absurd rfl h1
  | cons d rest =>
    have hd : (digitVal 10 d).isSome = true := h2 d (by simp)
    have hst : pyStrip (d :: rest) = d :: rest :=
      pyStrip_eq_self_of_no_space _ (fun c hc => digit_not_space (h2 c hc))
    have hdplus : d ≠ '+' := by
      intro he
      subst he
      simp [digitVal] at hd
    have hdminus : d ≠ '-' := by
      intro he
      subst he
      simp [digitVal] at hd
    have hd0 : d ≠ '0' := by
      intro he
      subst he
      exact h3 rfl
    have hbody : pyIntBody (d :: rest) = pyDecimal (d :: rest) := by
      cases rest with
      | nil => rfl
      | cons c1 rest2 =>
        rw [pyIntBody.eq_def]
        dsimp only
        rw [if_neg (fun hcond => hd0 hcond.1), if_neg (fun hcond => hd0 hcond.1),
          if_neg (fun hcond => hd0 hcond.1)]
    have hdec : pyDecimal (d :: rest) = some (digitsValue 10 (d :: rest)) := by
      unfold pyDecimal
      rw [parseUDigits_all_digits 10 (d :: rest) (by simp) h2]
      dsimp only
      rw [if_neg]
      rintro ⟨hh, -⟩
      exact h3 hh
    unfold pyIntBase0
    rw [hst]
    dsimp only
    rw [if_neg hdplus, if_neg hdminus, hbody, hdec]
    rfl

/-- C2: integer conversion parses the raw string as an integer literal —
a leading `0x`/`0o`/`0b` tag selects base 16/8/2, absence of a tag means
base 10 — fails with the integer `ConversionError` exactly when the parse
fails, and on success displays the decimal rendering of the parsed value;
in particular `"42"` gives value 42 and display `"42"`, `"0x2A"` gives
value 42 and display `"42"`, and `"abc"` is a `ConversionError`. -/
theorem C2_int_conversion :
    (∀ ds : PyStr, ds ≠ [] → (∀ c ∈ ds, (digitVal 16 c).isSome = true) →
        pyIntBase0 ('0' :: 'x' :: ds) = some (digitsValue 16 ds))
  ∧ (∀ ds : PyStr, ds ≠ [] → (∀ c ∈ ds, (digitVal 8 c).isSome = true) →
        pyIntBase0 ('0' :: 'o' :: ds) = some (digitsValue 8 ds))
  ∧ (∀ ds : PyStr, ds ≠ [] → (∀ c ∈ ds, (digitVal 2 c).isSome = true) →
        pyIntBase0 ('0' :: 'b' :: ds) = some (digitsValue 2 ds))
  ∧ (∀ ds : PyStr, ds ≠ [] → (∀ c ∈ ds, (digitVal 10 c).isSome = true) →
        ds.head? ≠ some '0' → pyIntBase0 ds = some (digitsValue 10 ds))
  ∧ (∀ (s : PyStr) (n : Int), pyIntBase0 s = some n →
        _convert_to_value s VariableType.VarInt =
          Except.ok ({ int_value := some n }, pyStrOfInt n))
  ∧ (∀ s : PyStr, pyIntBase0 s = none →
        _convert_to_value s VariableType.VarInt = Except.error intErrorMsg)
  ∧ _convert_to_value ("42".toList) VariableType.VarInt =
      Except.ok ({ int_value := some 42 }, "42".toList)
  ∧ _convert_to_value ("0x2A".toList) VariableType.VarInt =
      Except.ok ({ int_value := some 42 }, "42".toList)
  ∧ _convert_to_value ("abc".toList) VariableType.VarInt = Except.error intErrorMsg := by
  refine ⟨?_, ?_, ?_, pyIntBase0_decimal, ?_, ?_, rfl, rfl, rfl⟩
  · exact fun ds h1 h2 => pyIntBase0_tagged 16 'x' ds (Or.inl ⟨rfl, rfl⟩) h1 h2
  · exact fun ds h1 h2 => pyIntBase0_tagged 8 'o' ds (Or.inr (Or.inl ⟨rfl, rfl⟩)) h1 h2
  · exact fun ds h1 h2 => pyIntBase0_tagged 2 'b' ds (Or.inr (Or.inr ⟨rfl, rfl⟩)) h1 h2
  · intro s n h
    have h2 : pyIntBase0 (pyStrip s) = some n := (pyIntBase0_strip s).trans h
    simp only [_convert_to_value, h2]
  · intro s h
    have h2 : pyIntBase0 (pyStrip s) = none := (pyIntBase0_strip s).trans h
    simp only [_convert_to_value, h2]

/-- Witness for C2 at the hex digit string `"2A"` and the plain digit
string `"42"`, checking both quantified prefix clauses and the
success-path clause at `"0x2A"`. -/
theorem C2_int_conversion_witness :
    pyIntBase0 ('0' :: 'x' :: ("2A".toList)) = some (digitsValue 16 ("2A".toList)) ∧
      pyIntBase0 ("42".toList) = some (digitsValue 10 ("42".toList)) ∧
      _convert_to_value ("0x2A".toList) VariableType.VarInt =
        Except.ok ({ int_value := some 42 }, pyStrOfInt 42) :=
  ⟨C2_int_conversion.1 ("2A".toList) (by decide) (by decide),
   C2_int_conversion.2.2.2.1 ("42".toList) (by decide) (by decide) (by decide),
   C2_int_conversion.2.2.2.2.1 ("0x2A".toList) 42 (by decide)⟩

/-- Case analysis of `handle`: every request lands in exactly one of the
five pipeline outcomes (validation failure, lookup failure, conversion
failure, store failure, success), with the corresponding response. -/
theorem handle_outcomes (msg : SetVariableDAPMessage) (server : SimulationState) :
    (∃ e, _resolve_target_name msg.variables_reference msg.name = Except.error e ∧
        handle msg server =
          ({ success := false, message := some e, body := none }, server))
  ∨ (∃ t e, _resolve_target_name msg.variables_reference msg.name = Except.ok t ∧
        get_classical_variable server t = Except.error e ∧
        handle msg server =
          ({ success := false, message := some (unableToUpdateMsg msg.name),
             body := none }, server))
  ∨ (∃ t cv e, _resolve_target_name msg.variables_reference msg.name = Except.ok t ∧
        get_classical_variable server t = Except.ok cv ∧
        _convert_to_value msg.value cv.type = Except.error e ∧
        handle msg server =
          ({ success := false, message := some e, body := none }, server))
  ∨ (∃ t cv val disp e,
        _resolve_target_name msg.variables_reference msg.name = Except.ok t ∧
        get_classical_variable server t = Except.ok cv ∧
        _convert_to_value msg.value cv.type = Except.ok (val, disp) ∧
        set_classical_variable server t cv.type val = Except.error e ∧
        handle msg server =
          ({ success := false, message := some (unableToUpdateMsg msg.name),
             body := none }, server))
  ∨ (∃ t cv val disp st2,
        _resolve_target_name msg.variables_reference msg.name = Except.ok t ∧
        get_classical_variable server t = Except.ok cv ∧
        _convert_to_value msg.value cv.type = Except.ok (val, disp) ∧
        set_classical_variable server t cv.type val = Except.ok st2 ∧
        handle msg server =
          ({ success := true, message := none, body := some disp }, st2)) := by
  rcases hr : _resolve_target_name msg.variables_reference msg.name with e | t
  · exact Or.inl ⟨e, rfl, by simp only [handle, hr]⟩
  rcases hg : get_classical_variable server t with e | cv
  · exact Or.inr (Or.inl ⟨t, e, rfl, hg, by simp only [handle, hr, hg]⟩)
  rcases hc : _convert_to_value msg.value cv.type with e | out
  · exact Or.inr (Or.inr (Or.inl ⟨t, cv, e, rfl, hg, hc, by simp only [handle, hr, hg, hc]⟩))
  obtain ⟨val, disp⟩ := out
  rcases hs : set_classical_variable server t cv.type val with e | st2
  · exact Or.inr (Or.inr (Or.inr (Or.inl
      ⟨t, cv, val, disp, e, rfl, hg, hc, hs, by simp only [handle, hr, hg, hc, hs]⟩)))
  · exact Or.inr (Or.inr (Or.inr (Or.inr
      ⟨t, cv, val, disp, st2, rfl, hg, hc, hs, by simp only [handle, hr, hg, hc, hs]⟩)))

/-- C8: each request produces exactly one response; a validation failure
returns its message verbatim and stops the pipeline with the state
untouched; the response succeeds if and only if validation, lookup,
conversion and store all succeed; success and failure responses carry a
body respectively a message, never both; and the concrete request
(scope 1, `"creg[2]"`, raw `"1"`, declared type Bool) succeeds with value
`"True"`. -/
theorem C8_single_response_pipeline (msg : SetVariableDAPMessage)
    (server : SimulationState) :
    ((handle msg server).1.success = true ↔
      ∃ t cv val disp st2,
        _resolve_target_name msg.variables_reference msg.name = Except.ok t ∧
        get_classical_variable server t = Except.ok cv ∧
        _convert_to_value msg.value cv.type = Except.ok (val, disp) ∧
        set_classical_variable server t cv.type val = Except.ok st2)
  ∧ (∀ e, _resolve_target_name msg.variables_reference msg.name = Except.error e →
      handle msg server =
        ({ success := false, message := some e, body := none }, server))
  ∧ ((handle msg server).1.success = true →
      (handle msg server).1.message = none ∧ (handle msg server).1.body ≠ none)
  ∧ ((handle msg server).1.success = false →
      (handle msg server).1.body = none ∧ (handle msg server).1.message ≠ none)
  ∧ (handle { variables_reference := 1, name := "creg[2]".toList, value := "1".toList }
        demoServer).1 =
      { success := true, message := none, body := some ("True".toList) } := by
  refine ⟨⟨?_, ?_⟩, ?_, ?_, ?_, rfl⟩
  · intro hs
    rcases handle_outcomes msg server with ⟨e, h1, hh⟩ | ⟨t, e, h1, h2, hh⟩ |
      ⟨t, cv, e, h1, h2, h3, hh⟩ | ⟨t, cv, val, disp, e, h1, h2, h3, h4, hh⟩ |
      ⟨t, cv, val, disp, st2, h1, h2, h3, h4, hh⟩
    · rw [hh] at hs
      simp at hs
    · rw [hh] at hs
      simp at hs
    · rw [hh] at hs
      simp at hs
    · rw [hh] at hs
      simp at hs
    · exact ⟨t, cv, val, disp, st2, h1, h2, h3, h4⟩
  · rintro ⟨t, cv, val, disp, st2, h1, h2, h3, h4⟩
    have hh : handle msg server =
        ({ success := true, message := none, body := some disp }, st2) := by
      simp only [handle, h1, h2, h3, h4]
    rw [hh]
  · intro e he
    simp only [handle, he]
  · intro hs
    rcases handle_outcomes msg server with ⟨e, h1, hh⟩ | ⟨t, e, h1, h2, hh⟩ |
      ⟨t, cv, e, h1, h2, h3, hh⟩ | ⟨t, cv, val, disp, e, h1, h2, h3, h4, hh⟩ |
      ⟨t, cv, val, disp, st2, h1, h2, h3, h4, hh⟩ <;> rw [hh] at hs ⊢ <;> simp at hs ⊢
  · intro hs
    rcases handle_outcomes msg server with ⟨e, h1, hh⟩ | ⟨t, e, h1, h2, hh⟩ |
      ⟨t, cv, e, h1, h2, h3, hh⟩ | ⟨t, cv, val, disp, e, h1, h2, h3, h4, hh⟩ |
      ⟨t, cv, val, disp, st2, h1, h2, h3, h4, hh⟩ <;> rw [hh] at hs ⊢ <;> simp at hs ⊢

/-- Witness for C8 at the validation-failure request (scope 2,
`"q[0]"`). -/
theorem C8_single_response_pipeline_witness :
    handle { variables_reference := 2, name := "q[0]".toList, value := "1".toList }
        demoServer =
      ({ success := false, message := some scopeErrorMsg, body := none }, demoServer) :=
  (C8_single_response_pipeline
    { variables_reference := 2, name := "q[0]".toList, value := "1".toList }
    demoServer).2.1 scopeErrorMsg rfl

/-- C10: when validation, lookup or conversion fails, the store operation
is never reached: the returned state is the input state, and the whole
result is insensitive to how the store operation would behave. -/
theorem C10_failing_request_leaves_store_unchanged
    (msg : SetVariableDAPMessage) (server : SimulationState)
    (h : (∃ e, _resolve_target_name msg.variables_reference msg.name = Except.error e)
      ∨ (∃ t e, _resolve_target_name msg.variables_reference msg.name = Except.ok t ∧
          get_classical_variable server t = Except.error e)
      ∨ (∃ t cv e, _resolve_target_name msg.variables_reference msg.name = Except.ok t ∧
          get_classical_variable server t = Except.ok cv ∧
          _convert_to_value msg.value cv.type = Except.error e)) :
    (handle msg server).2 = server ∧
      ∀ f, handle msg { server with storeFails := f } =
        ((handle msg server).1, { server with storeFails := f }) := by
  have hget : ∀ (f : PyStr → Bool) (t : PyStr),
      get_classical_variable { server with storeFails := f } t =
        get_classical_variable server t := fun _ _ => rfl
  rcases h with ⟨e, h1⟩ | ⟨t, e, h1, h2⟩ | ⟨t, cv, e, h1, h2, h3⟩
  · exact ⟨by simp [handle, h1], fun f => by simp [handle, h1]⟩
  · exact ⟨by simp [handle, h1, h2], fun f => by simp [handle, h1, hget, h2]⟩
  · exact ⟨by simp [handle, h1, h2, h3], fun f => by simp [handle, h1, hget, h2, h3]⟩

/-- Witness for C10 at the validation-failure request (scope 2,
`"q[0]"`), with a store stub that would fail every store. -/
theorem C10_failing_request_leaves_store_unchanged_witness :
    (handle { variables_reference := 2, name := "q[0]".toList, value := "1".toList }
        demoServer).2 = demoServer ∧
      handle { variables_reference := 2, name := "q[0]".toList, value := "1".toList }
          { demoServer with storeFails := alwaysFailStore } =
        ((handle { variables_reference := 2, name := "q[0]".toList, value := "1".toList }
            demoServer).1,
          { demoServer with storeFails := alwaysFailStore }) :=
  ⟨(C10_failing_request_leaves_store_unchanged
      { variables_reference := 2, name := "q[0]".toList, value := "1".toList }
      demoServer (Or.inl ⟨scopeErrorMsg, rfl⟩)).1,
    (C10_failing_request_leaves_store_unchanged
      { variables_reference := 2, name := "q[0]".toList, value := "1".toList }
      demoServer (Or.inl ⟨scopeErrorMsg, rfl⟩)).2 alwaysFailStore⟩


/-- Concrete checks of the integer-literal model against the documented
behaviour of Python `int(s, 0)`. -/
theorem pyIntBase0_model_checks :
    pyIntBase0 ("42".toList) = some 42 ∧
      pyIntBase0 ("0x2A".toList) = some 42 ∧
      pyIntBase0 ("abc".toList) = none ∧
      pyIntBase0 ("010".toList) = none ∧
      pyIntBase0 ("0".toList) = some 0 ∧
      pyIntBase0 ("-0b1_1".toList) = some (-3) ∧
      pyIntBase0 ("0o17".toList) = some 15 ∧
      pyIntBase0 ("1_000".toList) = some 1000 ∧
      pyIntBase0 ("0x_ff".toList) = some 255 ∧
      pyIntBase0 ("1__0".toList) = none ∧
      pyIntBase0 ("  +42 ".toList) = some 42 ∧
      pyStrOfInt 42 = "42".toList ∧
      pyStrOfInt (-7) = "-7".toList := by
  decide

/-- Concrete checks of the float-literal model against the documented
behaviour of Python `float(s)`. -/
theorem pyFloatParse_model_checks :
    pyFloatParse ("3.14".toList) = some (PyFloatVal.finite 314 (-2)) ∧
      pyFloatParse ("notanumber".toList) = none ∧
      pyFloatParse (".5e1".toList) = some (PyFloatVal.finite 5 0) ∧
      pyFloatParse ("1.".toList) = some (PyFloatVal.finite 1 0) ∧
      pyFloatParse ("-INF".toList) = some PyFloatVal.neginf ∧
      pyFloatParse ("1._5".toList) = none ∧
      pyFloatParse ("1e".toList) = none ∧
      pyFloatParse (" 1_0.2_5e-1 ".toList) = some (PyFloatVal.finite 1025 (-3)) := by
  decide

/-- Concrete checks of validator, converter and handler on the requests
used throughout the spec. -/
theorem pipeline_model_checks :
    _resolve_target_name 2 ("q[0]".toList) = Except.error scopeErrorMsg ∧
      _resolve_target_name 1 ("creg".toList) = Except.error groupErrorMsg ∧
      _resolve_target_name 12 ("creg[2]".toList) = Except.ok ("creg[2]".toList) ∧
      _convert_to_value ("  true  ".toList) VariableType.VarBool =
        Except.ok ({ bool_value := some true }, "True".toList) ∧
      _convert_to_value ("0x2A".toList) VariableType.VarInt =
        Except.ok ({ int_value := some 42 }, "42".toList) ∧
      _convert_to_value ("x".toList) VariableType.VarBool = Except.error boolErrorMsg ∧
      (handle { variables_reference := 1, name := "creg[2]".toList, value := "1".toList }
          demoServer).1 =
        { success := true, message := none, body := some ("True".toList) } :=
  ⟨rfl, rfl, rfl, rfl, rfl, rfl, rfl⟩

/-- Concrete checks that stripping also removes the separator control
characters U+001C through U+001F, matching Python
(1C is `chr 28`, 1F is `chr 31`): inputs led by them convert exactly as
their trimmed forms do. -/
theorem pyStrip_separator_control_checks :
    pyStrip (Char.ofNat 28 :: "true".toList) = "true".toList ∧
      pyStrip (Char.ofNat 31 :: '4' :: '2' :: [Char.ofNat 29]) = "42".toList ∧
      _convert_to_value (Char.ofNat 28 :: "true".toList) VariableType.VarBool =
        Except.ok ({ bool_value := some true }, "True".toList) ∧
      _convert_to_value (Char.ofNat 28 :: "42".toList) VariableType.VarInt =
        Except.ok ({ int_value := some 42 }, "42".toList) :=
  ⟨by decide, by decide, rfl, rfl⟩
